import Mathlib

/-!
Shallow embedding of the TCP port scanner in `src/source/scanner.py`
(class `PortScanner`) and verification of its specification.

The network and operating system are modelled as explicit oracles:

* `ConnectAttempt` describes how the OS-level connect attempt presents
  itself to the Python code inside `scan_port`'s `try` block — either
  `connect_ex` returns an error code (`code n`, with `0` meaning the
  connection succeeded), or an exception is raised (`socket.timeout`,
  `PermissionError`, or any other exception carrying `str(e) = msg`).
* `BannerAttempt` describes what happens during `grab_banner`'s
  `try` block: the `send` may raise, the `recv` may time out or raise,
  or the `recv` succeeds and the network has `stream` bytes available
  (of which `recv(1024)` returns at most 1024).

Completion order of the thread pool in `scan_range` is nondeterministic;
it is modelled by an explicit `order : List Nat` parameter which the
theorems constrain to be a permutation of the submitted port list.
-/

/-- One scan result record: the dict returned by `PortScanner.scan_port`
with keys `port`, `status`, `service`, `banner`. -/
structure ProbeOutcome where
  port : Nat
  status : String
  service : String
  banner : String
deriving DecidableEq

/-- How the OS-level connect attempt presents itself to the Python code:
`connect_ex` returns an error code (`0` = success), or raises. -/
inductive ConnectAttempt where
  | code (n : Nat)
  | timeoutExc
  | permissionExc
  | otherExc (msg : String)
deriving DecidableEq

/-- Behaviour of the environment during `grab_banner`'s try block. -/
inductive BannerAttempt where
  | sendFail
  | recvTimeout
  | recvFail
  | recvOk (stream : List Nat)
deriving DecidableEq

/-- Continuation byte test: `10xxxxxx`, i.e. `0x80 ≤ b ≤ 0xBF`. -/
def contOk (b : Nat) : Bool := 128 ≤ b && b ≤ 191

/-- Allowed first continuation byte after a three-byte lead `b`
(excludes overlong encodings and surrogates, as CPython does). -/
def cont3Fst (b b2 : Nat) : Bool :=
  if b = 224 then 160 ≤ b2 && b2 ≤ 191
  else if b = 237 then 128 ≤ b2 && b2 ≤ 159
  else contOk b2

/-- Allowed first continuation byte after a four-byte lead `b`
(excludes overlong encodings and code points above U+10FFFF). -/
def cont4Fst (b b2 : Nat) : Bool :=
  if b = 240 then 144 ≤ b2 && b2 ≤ 191
  else if b = 244 then 128 ≤ b2 && b2 ≤ 143
  else contOk b2

/-- Model of `bytes.decode("utf-8", errors="ignore")`: standard UTF-8
decoding where an invalid sequence is dropped (the lead byte together
with the valid continuation bytes read so far is skipped) instead of
raising. -/
def utf8DecodeIgnore : List Nat → List Char
  | [] => []
  | b :: rest =>
    if b < 128 then Char.ofNat b :: utf8DecodeIgnore rest
    else if 194 ≤ b && b ≤ 223 then
      match rest with
      | b2 :: rest2 =>
        if contOk b2 then
          Char.ofNat ((b - 192) * 64 + (b2 - 128)) :: utf8DecodeIgnore rest2
        else utf8DecodeIgnore (b2 :: rest2)
      | [] => []
    else if 224 ≤ b && b ≤ 239 then
      match rest with
      | b2 :: rest2 =>
        if cont3Fst b b2 then
          match rest2 with
          | b3 :: rest3 =>
            if contOk b3 then
              Char.ofNat ((b - 224) * 4096 + (b2 - 128) * 64 + (b3 - 128)) ::
                utf8DecodeIgnore rest3
            else utf8DecodeIgnore (b3 :: rest3)
          | [] => []
        else utf8DecodeIgnore (b2 :: rest2)
      | [] => []
    else if 240 ≤ b && b ≤ 244 then
      match rest with
      | b2 :: rest2 =>
        if cont4Fst b b2 then
          match rest2 with
          | b3 :: rest3 =>
            if contOk b3 then
              match rest3 with
              | b4 :: rest4 =>
                if contOk b4 then
                  Char.ofNat ((b - 240) * 262144 + (b2 - 128) * 4096 +
                    (b3 - 128) * 64 + (b4 - 128)) :: utf8DecodeIgnore rest4
                else utf8DecodeIgnore (b4 :: rest4)
              | [] => []
            else utf8DecodeIgnore (b3 :: rest3)
          | [] => []
        else utf8DecodeIgnore (b2 :: rest2)
      | [] => []
    else utf8DecodeIgnore rest
termination_by l => l.length
decreasing_by all_goals (simp_wf <;> omega)

/-- Whitespace for `str.strip()` (the ASCII part of Python's notion:
`\t \n \v \f \r`, the file/group/record/unit separators, and space). -/
def isPySpace (c : Char) : Bool :=
  (9 ≤ c.toNat && c.toNat ≤ 13) || (28 ≤ c.toNat && c.toNat ≤ 32)

/-- Model of `str.strip()`: remove leading and trailing whitespace. -/
def pyStrip (l : List Char) : List Char :=
  ((l.dropWhile isPySpace).reverse.dropWhile isPySpace).reverse

/-- Model of `sock.recv(1024)`: at most 1024 bytes of the available
stream are returned. -/
def recvBytes (stream : List Nat) : List Nat := stream.take 1024

/-- `PortScanner.grab_banner`, instrumented with the bytes written by
`sock.send(b"\r\n")`: returns `(bytes sent, banner string)`.
On `socket.timeout` or any other exception the banner is `""`. -/
def grabBannerTrace (ev : BannerAttempt) : List Nat × String :=
  match ev with
  | .sendFail => ([], "")
  | .recvTimeout => ([13, 10], "")
  | .recvFail => ([13, 10], "")
  | .recvOk stream =>
    let banner_bytes := recvBytes stream
    let banner_texto := utf8DecodeIgnore banner_bytes
    ([13, 10], (pyStrip banner_texto).asString)

/-- `PortScanner.grab_banner`: the banner string it returns. -/
def grab_banner (ev : BannerAttempt) : String := (grabBannerTrace ev).2

/-- The scanner object: `target`, `ports = range(ports_start, ports_stop)`,
`timeout`, `threads`, the resolved `_ip` and the `_results` list. -/
structure PortScanner where
  target : String
  ports_start : Nat
  ports_stop : Nat
  timeout : Rat
  threads : Int
  ip : String
  results : List ProbeOutcome
deriving DecidableEq

/-- The port list `range(ports_start, ports_stop)` iterated by
`scan_range`, as a list. -/
def portsList (s : PortScanner) : List Nat :=
  List.range' s.ports_start (s.ports_stop - s.ports_start)

/-- `PortScanner.scan_port` for one port, given how the connect attempt
presents itself (`conn`) and how the banner exchange behaves (`ban`):

* `connect_ex` returned `0` → status `"open"`, banner from `grab_banner`;
* `connect_ex` returned a nonzero code → status `"closed"`;
* `socket.timeout` raised → status `"filtered"`;
* `PermissionError` raised → status `"error"`, service `"Permission Denied"`;
* any other exception `e` → status `"error"`, banner `"Erro: " ++ str(e)`. -/
def scan_port (s : PortScanner) (port : Nat) (conn : ConnectAttempt)
    (ban : BannerAttempt) : ProbeOutcome :=
  match conn with
  | .code result_code =>
    if result_code = 0 then
      { port := port, status := "open", service := "", banner := grab_banner ban }
    else
      { port := port, status := "closed", service := "N/A", banner := "" }
  | .timeoutExc =>
    { port := port, status := "filtered", service := "N/A", banner := "" }
  | .permissionExc =>
    { port := port, status := "error", service := "Permission Denied", banner := "" }
  | .otherExc msg =>
    { port := port, status := "error", service := "N/A", banner := "Erro: " ++ msg }

/-- State of the socket created at the top of `scan_port`. -/
inductive SockState where
  | opened
  | closed
deriving DecidableEq

/-- `sock.close()`. -/
def sockClose (_ : SockState) : SockState := SockState.closed

/-- A `try ... finally fin` block whose body cannot propagate an
exception (every exception is caught by an `except` clause, as in
`scan_port`): run the body, then always run the finalizer. -/
def pyTryFinally (body : SockState → ProbeOutcome × SockState)
    (fin : SockState → SockState) (st : SockState) : ProbeOutcome × SockState :=
  let r := body st
  (r.1, fin r.2)

/-- `PortScanner.scan_port` together with the lifecycle of its socket:
the socket is created `opened`, the `try` block computes the outcome,
and the `finally` clause runs `sock.close()` on the way out. -/
def scan_port_run (s : PortScanner) (port : Nat) (conn : ConnectAttempt)
    (ban : BannerAttempt) : ProbeOutcome × SockState :=
  pyTryFinally (fun st => (scan_port s port conn ban, st)) sockClose SockState.opened

/-- One progress notification `[*] Progresso: ...%`: the completion
counter, the total, and the printed percentage `(completed / total) * 100`
(modelled as an exact rational). -/
structure Progress where
  completed : Nat
  total : Nat
  pct : Rat
deriving DecidableEq

/-- The percentage printed by `scan_range`. -/
def porcentagem (completed total : Nat) : Rat :=
  ((completed : Rat) / (total : Rat)) * 100

/-- Build one progress notification. -/
def mkProgress (completed total : Nat) : Progress :=
  { completed := completed, total := total, pct := porcentagem completed total }

/-- The outcomes of the submitted probes, in completion order: one
`scan_port` call per port, consumed by `as_completed` in the order given
by `order`. -/
def scanOutcomes (s : PortScanner) (order : List Nat)
    (conn : Nat → ConnectAttempt) (ban : Nat → BannerAttempt) : List ProbeOutcome :=
  order.map (fun port => scan_port s port (conn port) (ban port))

/-- The `for future in as_completed(...)` loop of `scan_range`:
increments `completed` for every outcome, emits a progress notification
when `completed % 20 == 0 or completed == total`, and appends the
outcome to the results only when its status is `"open"`.
Returns the final `(completed, emitted progress, collected results)`. -/
def scanLoop (total : Nat) : List ProbeOutcome → Nat → List Progress →
    List ProbeOutcome → Nat × List Progress × List ProbeOutcome
  | [], completed, events, results => (completed, events, results)
  | result :: rest, completed, events, results =>
    let completed := completed + 1
    let events :=
      if completed % 20 = 0 ∨ completed = total then
        events ++ [mkProgress completed total]
      else events
    let results :=
      if result.status = "open" then results ++ [result] else results
    scanLoop total rest completed events results

/-- Insertion step of a stable sort by the `port` key. -/
def insertByPort (r : ProbeOutcome) : List ProbeOutcome → List ProbeOutcome
  | [] => [r]
  | x :: xs => if x.port ≤ r.port then x :: insertByPort r xs else r :: x :: xs

/-- Model of `self._results.sort(key=lambda x: x["port"])`: a stable
sort of the collected results, ascending by port number. -/
def sortByPort : List ProbeOutcome → List ProbeOutcome
  | [] => []
  | x :: xs => insertByPort x (sortByPort xs)

/-- `PortScanner.scan_range`, given the completion order of the futures
and the per-port oracles. First `self._results = []`; then
`ThreadPoolExecutor(max_workers=self.threads)` raises `ValueError` when
`threads ≤ 0`, before any probe is submitted; otherwise one probe per
port of `self.ports` is submitted, the completion loop aggregates the
outcomes, and the retained results are sorted by port.
Returns `(returned list, scanner state after the call, progress emitted)`. -/
def scan_range (s : PortScanner) (order : List Nat)
    (conn : Nat → ConnectAttempt) (ban : Nat → BannerAttempt) :
    Except String (List ProbeOutcome × PortScanner × List Progress) :=
  let s := { s with results := [] }
  if s.threads ≤ 0 then
    Except.error "max_workers must be greater than 0"
  else
    let outs := scanOutcomes s order conn ban
    let total := (portsList s).length
    let step := scanLoop total outs 0 [] []
    let final := sortByPort step.2.2
    Except.ok (final, { s with results := final }, step.2.1)

/-- Resolution failure message raised by the constructor (`ValueError`). -/
def resolveErrorMsg (target : String) : String :=
  "Erro: Nao foi possivel resolver o hostname " ++ target

/-- `PortScanner.__init__`: store the configuration, set `_results = []`,
and resolve the hostname via `socket.gethostbyname` (modelled by the
`resolve` oracle); on `socket.gaierror` raise `ValueError`. -/
def PortScanner.init (resolve : String → Option String) (target : String)
    (ports_start ports_stop : Nat) (timeout : Rat) (threads : Int) :
    Except String PortScanner :=
  match resolve target with
  | some ip =>
    Except.ok { target := target, ports_start := ports_start,
                ports_stop := ports_stop, timeout := timeout,
                threads := threads, ip := ip, results := [] }
  | none => Except.error (resolveErrorMsg target)

/-- Reference to a Python list object on the heap. -/
structure PyListRef where
  ref : Nat
deriving DecidableEq

/-- A heap of Python list objects: cell contents per address, plus the
next fresh address. Needed to state aliasing facts about
`get_results`, which Lean's immutable values cannot express directly. -/
structure Heap where
  cells : Nat → List ProbeOutcome
  next : Nat

/-- Allocate a fresh list object holding `v`. -/
def Heap.alloc (h : Heap) (v : List ProbeOutcome) : Heap × PyListRef :=
  ({ cells := fun a => if a = h.next then v else h.cells a, next := h.next + 1 },
   ⟨h.next⟩)

/-- Read a list object. -/
def Heap.read (h : Heap) (r : PyListRef) : List ProbeOutcome :=
  h.cells r.ref

/-- Mutate a list object in place (covers `append`, `remove`, reordering:
any in-place change replaces the cell contents). -/
def Heap.write (h : Heap) (r : PyListRef) (v : List ProbeOutcome) : Heap :=
  { h with cells := fun a => if a = r.ref then v else h.cells a }

/-- `self._results.copy()`: allocate a new list object with the same
contents. -/
def listCopy (h : Heap) (r : PyListRef) : Heap × PyListRef :=
  h.alloc (h.read r)

/-- `PortScanner.get_results`, on a heap where `resultsRef` is the
scanner's internal `_results` object: returns a copy. -/
def get_results (h : Heap) (resultsRef : PyListRef) : Heap × PyListRef :=
  listCopy h resultsRef

/-- Does the banner phase fail (timeout, send error or read error)? -/
def bannerFails (ev : BannerAttempt) : Bool :=
  match ev with
  | .recvOk _ => false
  | _ => true

/-- Sample scanner: three ports `range(1, 4)`, two worker threads. -/
def sEx : PortScanner :=
  { target := "alvo", ports_start := 1, ports_stop := 4, timeout := 1,
    threads := 2, ip := "127.0.0.1", results := [] }

/-- Sample scanner with a non-positive thread count. -/
def sBad : PortScanner := { sEx with threads := 0 }

/-- Sample scanner with an empty port range `range(5, 5)`. -/
def sEmpty : PortScanner := { sEx with ports_start := 5, ports_stop := 5 }

/-- Sample completion order for `sEx`: port 2 finishes first. -/
def ordEx : List Nat := [2, 1, 3]

/-- Environment where every connect attempt is refused (`ECONNREFUSED = 111`). -/
def connClosed : Nat → ConnectAttempt := fun _ => ConnectAttempt.code 111

/-- Environment where only port 2 accepts the connection. -/
def connEx : Nat → ConnectAttempt :=
  fun port => if port = 2 then ConnectAttempt.code 0 else ConnectAttempt.code 111

/-- Environment where every open service echoes `"HI\r\n"`. -/
def banEx : Nat → BannerAttempt := fun _ => BannerAttempt.recvOk [72, 73, 13, 10]

/-- Environment where no service sends banner data (the read times out). -/
def banNone : Nat → BannerAttempt := fun _ => BannerAttempt.recvTimeout

/-- A 40-port scanner configuration. -/
def cfgA : PortScanner :=
  { target := "a", ports_start := 1, ports_stop := 41, timeout := 1,
    threads := 100, ip := "10.0.0.1", results := [] }

/-- A second 40-port scanner configuration differing from `cfgA` in every
configuration field. -/
def cfgB : PortScanner :=
  { target := "b", ports_start := 101, ports_stop := 141, timeout := 5,
    threads := 7, ip := "10.0.0.2", results := [] }

/-- Sample heap: one allocated list object at address 0. -/
def hEx : Heap :=
  { cells := fun a =>
      if a = 0 then [{ port := 80, status := "open", service := "", banner := "OK" }]
      else [],
    next := 1 }

/-- Reference to the list object of `hEx`. -/
def rEx : PyListRef := ⟨0⟩

/-- Sample echoed banner line. -/
def echoEx : List Char := ['O', 'K', '\r', '\n']

/-! ### Helper lemmas -/

theorem scan_port_port (s : PortScanner) (port : Nat) (conn : ConnectAttempt)
    (ban : BannerAttempt) : (scan_port s port conn ban).port = port := by
  cases conn with
  | code n =>
    by_cases hn : n = 0 <;> simp [scan_port, hn]
  | timeoutExc => rfl
  | permissionExc => rfl
  | otherExc msg => rfl

theorem scanOutcomes_map_port (s : PortScanner) (order : List Nat)
    (conn : Nat → ConnectAttempt) (ban : Nat → BannerAttempt) :
    (scanOutcomes s order conn ban).map (fun r => r.port) = order := by
  simp [scanOutcomes, List.map_map, Function.comp_def, scan_port_port]

theorem scanLoop_fst (total : Nat) (l : List ProbeOutcome) (completed : Nat)
    (events : List Progress) (results : List ProbeOutcome) :
    (scanLoop total l completed events results).1 = completed + l.length := by
  induction l generalizing completed events results with
  | nil => simp [scanLoop]
  | cons r rest ih => simp [scanLoop, ih]; omega

theorem scanLoop_results (total : Nat) (l : List ProbeOutcome) (completed : Nat)
    (events : List Progress) (results : List ProbeOutcome) :
    (scanLoop total l completed events results).2.2 =
      results ++ l.filter (fun x => x.status = "open") := by
  induction l generalizing completed events results with
  | nil => simp [scanLoop]
  | cons r rest ih =>
    by_cases hr : r.status = "open" <;>
      simp [scanLoop, hr, ih]

theorem scanLoop_events (total : Nat) (l : List ProbeOutcome) (completed : Nat)
    (events : List Progress) (results : List ProbeOutcome) :
    (scanLoop total l completed events results).2.1 =
      events ++ ((List.range' (completed + 1) l.length).filter
        (fun k => k % 20 = 0 ∨ k = total)).map (fun k => mkProgress k total) := by
  induction l generalizing completed events results with
  | nil => simp [scanLoop]
  | cons r rest ih =>
    by_cases hc : (completed + 1) % 20 = 0 ∨ completed + 1 = total <;>
      simp [scanLoop, hc, ih, List.range'_succ, List.filter_cons]

theorem insertByPort_perm (r : ProbeOutcome) (l : List ProbeOutcome) :
    (insertByPort r l).Perm (r :: l) := by
  induction l with
  | nil => simp [insertByPort]
  | cons x xs ih =>
    by_cases hx : x.port ≤ r.port
    · simp only [insertByPort, if_pos hx]
      exact ((ih.cons x).trans (List.Perm.swap r x xs))
    · simp [insertByPort, if_neg hx]

theorem sortByPort_perm (l : List ProbeOutcome) : (sortByPort l).Perm l := by
  induction l with
  | nil => simp [sortByPort]
  | cons x xs ih =>
    exact (insertByPort_perm x (sortByPort xs)).trans (ih.cons x)

theorem insertByPort_sorted (r : ProbeOutcome) (l : List ProbeOutcome)
    (h : l.Pairwise (fun a b => a.port ≤ b.port)) :
    (insertByPort r l).Pairwise (fun a b => a.port ≤ b.port) := by
  induction l with
  | nil => simp [insertByPort]
  | cons x xs ih =>
    rcases List.pairwise_cons.mp h with ⟨hx, hxs⟩
    by_cases hle : x.port ≤ r.port
    · simp only [insertByPort, if_pos hle]
      refine List.pairwise_cons.mpr ⟨?_, ih hxs⟩
      intro y hy
      rcases List.mem_cons.mp ((insertByPort_perm r xs).mem_iff.mp hy) with hy2 | hy2
      · exact hy2 ▸ hle
      · exact hx y hy2
    · simp only [insertByPort, if_neg hle]
      refine List.pairwise_cons.mpr ⟨?_, h⟩
      intro y hy
      rcases List.mem_cons.mp hy with hy | hy
      · exact hy ▸ Nat.le_of_lt (Nat.lt_of_not_le hle)
      · exact Nat.le_trans (Nat.le_of_lt (Nat.lt_of_not_le hle)) (hx y hy)

theorem sortByPort_sorted (l : List ProbeOutcome) :
    (sortByPort l).Pairwise (fun a b => a.port ≤ b.port) := by
  induction l with
  | nil => simp [sortByPort]
  | cons x xs ih => exact insertByPort_sorted x (sortByPort xs) ih

theorem utf8DecodeIgnore_ascii (l : List Char) (h : ∀ c ∈ l, c.toNat < 128) :
    utf8DecodeIgnore (l.map Char.toNat) = l := by
  induction l with
  | nil => simp [utf8DecodeIgnore]
  | cons c rest ih =>
    have hc : c.toNat < 128 := h c (List.mem_cons_self c rest)
    have hrest : ∀ x ∈ rest, x.toNat < 128 :=
      fun x hx => h x (List.mem_cons_of_mem c hx)
    rw [utf8DecodeIgnore.eq_def]
    simp [hc, Char.ofNat_toNat, ih hrest]

/-! ### Claims -/

/-- C1 counterexample: error code 113 (`EHOSTUNREACH`, "No route to host")
is an OS/network-level failure that is neither a refusal, a timeout
exception, nor a permission failure, yet `scan_port` classifies it as
`"closed"`, while the claim requires status Error with the stringified
cause as detail. -/
theorem c1_counterexample :
    scan_port sEx 80 (ConnectAttempt.code 113) (BannerAttempt.recvOk []) =
      { port := 80, status := "closed", service := "N/A", banner := "" } := by
  rfl

/-- C1 (amended): a connect attempt whose `connect_ex` call returns any
nonzero error code — refusal, but also unreachable-network or no-route
codes — yields status `"closed"`; a `socket.timeout` exception yields
`"filtered"`; a `PermissionError` yields `"error"` with the diagnostic
`"Permission Denied"` in the service field; any other exception `e`
yields `"error"` with `"Erro: " ++ str(e)` in the banner field. -/
theorem c1_scan_port_classification (s : PortScanner) (p n : Nat)
    (msg : String) (ban : BannerAttempt) (hn : n ≠ 0) :
    scan_port s p (ConnectAttempt.code n) ban =
      { port := p, status := "closed", service := "N/A", banner := "" } ∧
    scan_port s p ConnectAttempt.timeoutExc ban =
      { port := p, status := "filtered", service := "N/A", banner := "" } ∧
    scan_port s p ConnectAttempt.permissionExc ban =
      { port := p, status := "error", service := "Permission Denied", banner := "" } ∧
    scan_port s p (ConnectAttempt.otherExc msg) ban =
      { port := p, status := "error", service := "N/A", banner := "Erro: " ++ msg } := by
  exact ⟨by simp [scan_port, hn], rfl, rfl, rfl⟩

/-- C1 witness: the amended classification evaluated at concrete inputs. -/
theorem c1_witness :
    (111 : Nat) ≠ 0 ∧
    (scan_port sEx 80 (ConnectAttempt.code 111) BannerAttempt.recvTimeout =
      { port := 80, status := "closed", service := "N/A", banner := "" } ∧
    scan_port sEx 80 ConnectAttempt.timeoutExc BannerAttempt.recvTimeout =
      { port := 80, status := "filtered", service := "N/A", banner := "" } ∧
    scan_port sEx 80 ConnectAttempt.permissionExc BannerAttempt.recvTimeout =
      { port := 80, status := "error", service := "Permission Denied", banner := "" } ∧
    scan_port sEx 80 (ConnectAttempt.otherExc "boom") BannerAttempt.recvTimeout =
      { port := 80, status := "error", service := "N/A", banner := "Erro: boom" }) :=
  ⟨by decide,
   c1_scan_port_classification sEx 80 111 "boom" BannerAttempt.recvTimeout (by decide)⟩

/-- C4: on every exit path of `scan_port` — success, every classified
failure, and any exception caught by the `except` clauses — the
`finally` clause closes the socket before the function returns. -/
theorem c4_socket_closed_all_paths (s : PortScanner) (p : Nat)
    (conn : ConnectAttempt) (ban : BannerAttempt) :
    (scan_port_run s p conn ban).2 = SockState.closed := by
  rfl

/-- C5: when the banner phase times out or fails (send error or read
error), `grab_banner` returns the empty banner and the outcome of the
already-open port keeps status `"open"` with an empty banner. -/
theorem c5_banner_failure_keeps_open (s : PortScanner) (p : Nat)
    (ev : BannerAttempt) (hfail : bannerFails ev = true) :
    grab_banner ev = "" ∧
    scan_port s p (ConnectAttempt.code 0) ev =
      { port := p, status := "open", service := "", banner := "" } := by
  cases ev with
  | recvOk stream => simp [bannerFails] at hfail
  | sendFail => exact ⟨rfl, rfl⟩
  | recvTimeout => exact ⟨rfl, rfl⟩
  | recvFail => exact ⟨rfl, rfl⟩

/-- C5 witness: a banner timeout on an open port. -/
theorem c5_witness :
    bannerFails BannerAttempt.recvTimeout = true ∧
    (grab_banner BannerAttempt.recvTimeout = "" ∧
    scan_port sEx 80 (ConnectAttempt.code 0) BannerAttempt.recvTimeout =
      { port := 80, status := "open", service := "", banner := "" }) :=
  ⟨by decide, c5_banner_failure_keeps_open sEx 80 BannerAttempt.recvTimeout (by decide)⟩

/-- C6: banner capture sends exactly the empty line terminator
`b"\r\n"`, reads at most 1024 bytes, decodes them with the permissive
(never failing) UTF-8 decoder and trims surrounding whitespace; for a
service that echoes an ASCII line of at most 1024 bytes, the returned
banner is exactly the echoed text with surrounding whitespace
trimmed. -/
theorem c6_banner_capture (echoed : List Char) (stream : List Nat)
    (hascii : ∀ c ∈ echoed, c.toNat < 128) (hlen : echoed.length ≤ 1024) :
    (grabBannerTrace (BannerAttempt.recvOk stream)).1 = [13, 10] ∧
    (recvBytes stream).length ≤ 1024 ∧
    grab_banner (BannerAttempt.recvOk stream) =
      (pyStrip (utf8DecodeIgnore (recvBytes stream))).asString ∧
    grab_banner (BannerAttempt.recvOk (echoed.map Char.toNat)) =
      (pyStrip echoed).asString := by
  refine ⟨rfl, ?_, rfl, ?_⟩
  · simp [recvBytes, List.length_take]
  · have htake : recvBytes (echoed.map Char.toNat) = echoed.map Char.toNat := by
      apply List.take_of_length_le
      simpa using hlen
    simp [grab_banner, grabBannerTrace, htake, utf8DecodeIgnore_ascii echoed hascii]

/-- C6 witness: a service that echoes `"OK\r\n"` yields banner `"OK"`. -/
theorem c6_witness :
    (∀ c ∈ echoEx, c.toNat < 128) ∧ echoEx.length ≤ 1024 ∧
    grab_banner (BannerAttempt.recvOk (echoEx.map Char.toNat)) =
      (pyStrip echoEx).asString ∧
    (pyStrip echoEx).asString = "OK" :=
  ⟨by decide, by decide,
   (c6_banner_capture echoEx (echoEx.map Char.toNat) (by decide) (by decide)).2.2.2,
   by decide⟩

/-- C7: configuration errors are fatal and precede every probe: a
hostname that fails to resolve makes the constructor raise `ValueError`
(so no scanner and no per-port outcome exists at all), and a thread
count ≤ 0 makes `scan_range` raise `ValueError` from
`ThreadPoolExecutor(max_workers=...)` before any probe is submitted,
so it produces no outcome list. -/
theorem c7_config_errors_fatal (resolve : String → Option String)
    (target : String) (ports_start ports_stop : Nat) (timeout : Rat)
    (threads : Int) (s : PortScanner) (order : List Nat)
    (conn : Nat → ConnectAttempt) (ban : Nat → BannerAttempt) :
    (resolve target = none →
      PortScanner.init resolve target ports_start ports_stop timeout threads =
        Except.error (resolveErrorMsg target)) ∧
    (s.threads ≤ 0 →
      scan_range s order conn ban =
        Except.error "max_workers must be greater than 0") := by
  constructor
  · intro hres
    simp [PortScanner.init, hres]
  · intro hthreads
    simp [scan_range, hthreads]

/-- C7 witness: an unresolvable host and a zero thread count. -/
theorem c7_witness :
    ((fun _ : String => (none : Option String)) "alvo" = none) ∧
    sBad.threads ≤ 0 ∧
    PortScanner.init (fun _ : String => none) "alvo" 1 4 1 100 =
      Except.error (resolveErrorMsg "alvo") ∧
    scan_range sBad ordEx connClosed banEx =
      Except.error "max_workers must be greater than 0" :=
  ⟨rfl, by decide,
   (c7_config_errors_fatal (fun _ => none) "alvo" 1 4 1 100 sBad ordEx connClosed banEx).1 rfl,
   (c7_config_errors_fatal (fun _ => none) "alvo" 1 4 1 100 sBad ordEx connClosed banEx).2 (by decide)⟩

/-- C8: an empty port range submits no probes and `scan_range` returns
the empty result list (with no progress notifications and the internal
results list left empty). -/
theorem c8_empty_range (s : PortScanner) (order : List Nat)
    (conn : Nat → ConnectAttempt) (ban : Nat → BannerAttempt)
    (hempty : portsList s = []) (hpos : 0 < s.threads)
    (hperm : order.Perm (portsList s)) :
    scanOutcomes s order conn ban = [] ∧
    scan_range s order conn ban =
      Except.ok ([], { s with results := [] }, []) := by
  have horder : order = [] := by
    rw [hempty] at hperm
    exact hperm.eq_nil
  subst horder
  refine ⟨rfl, ?_⟩
  simp [scan_range, not_le.mpr hpos, scanOutcomes, scanLoop, sortByPort]

/-- C8 witness: scanning `range(5, 5)`. -/
theorem c8_witness :
    portsList sEmpty = [] ∧ 0 < sEmpty.threads ∧
    ([] : List Nat).Perm (portsList sEmpty) ∧
    (scanOutcomes sEmpty [] connClosed banEx = [] ∧
    scan_range sEmpty [] connClosed banEx =
      Except.ok ([], { sEmpty with results := [] }, [])) :=
  ⟨by decide, by decide, by decide,
   c8_empty_range sEmpty [] connClosed banEx (by decide) (by decide) (by decide)⟩

/-- C2: whatever the completion order, the list returned by `scan_range`
contains only outcomes with status `"open"` and is strictly ascending by
port number (hence sorted with no duplicate port values). -/
theorem c2_results_open_sorted_nodup (s : PortScanner) (order : List Nat)
    (conn : Nat → ConnectAttempt) (ban : Nat → BannerAttempt)
    (final : List ProbeOutcome) (s2 : PortScanner) (events : List Progress)
    (hperm : order.Perm (portsList s))
    (hrun : scan_range s order conn ban = Except.ok (final, s2, events)) :
    (∀ r ∈ final, r.status = "open") ∧
    final.Pairwise (fun a b => a.port < b.port) := by
  by_cases ht : s.threads ≤ 0
  · simp [scan_range, ht] at hrun
  · simp only [scan_range, if_neg ht, Except.ok.injEq, Prod.mk.injEq] at hrun
    obtain ⟨hfinal, -, -⟩ := hrun
    set outs := scanOutcomes { s with results := [] } order conn ban with houts
    have hcollected :
        (scanLoop (portsList { s with results := [] }).length outs 0 [] []).2.2 =
          outs.filter (fun x => x.status = "open") := by
      simpa using scanLoop_results _ outs 0 [] []
    rw [hcollected] at hfinal
    have hmem : ∀ r ∈ final, r ∈ outs.filter (fun x => x.status = "open") := by
      intro r hr
      rw [← hfinal] at hr
      exact (sortByPort_perm _).mem_iff.mp hr
    constructor
    · intro r hr
      have := List.of_mem_filter (hmem r hr)
      simpa using this
    · have hsorted : final.Pairwise (fun a b => a.port ≤ b.port) := by
        rw [← hfinal]; exact sortByPort_sorted _
      have hports_nodup : (portsList s).Nodup := by
        unfold portsList
        exact List.nodup_range' _ _
      have horder_nodup : order.Nodup := hperm.nodup_iff.mpr hports_nodup
      have hmapport : outs.map (fun r => r.port) = order :=
        scanOutcomes_map_port _ order conn ban
      have hsub : (outs.filter (fun x => x.status = "open")).Sublist outs :=
        List.filter_sublist outs
      have hsubmap :
          ((outs.filter (fun x => x.status = "open")).map (fun r => r.port)).Sublist
            order := by
        rw [← hmapport]
        exact hsub.map _
      have hfiltered_nodup :
          ((outs.filter (fun x => x.status = "open")).map (fun r => r.port)).Nodup :=
        hsubmap.nodup horder_nodup
      have hfinal_nodup : (final.map (fun r => r.port)).Nodup := by
        refine (List.Perm.nodup_iff ?_).mpr hfiltered_nodup
        rw [← hfinal]
        exact (sortByPort_perm _).map _
      have hne : final.Pairwise (fun a b => a.port ≠ b.port) :=
        List.pairwise_map.mp hfinal_nodup
      exact (hsorted.and hne).imp fun h => Nat.lt_of_le_of_ne h.1 h.2

/-- C2 witness: a concrete scan whose probes complete out of order. -/
theorem c2_witness :
    ordEx.Perm (portsList sEx) ∧
    scan_range sEx ordEx connEx banNone =
      Except.ok ([{ port := 2, status := "open", service := "", banner := "" }],
        ({ sEx with results :=
            [{ port := 2, status := "open", service := "", banner := "" }] } :
          PortScanner),
        [mkProgress 3 3]) ∧
    ((∀ r ∈ ([{ port := 2, status := "open", service := "", banner := "" }] :
        List ProbeOutcome), r.status = "open") ∧
      List.Pairwise (fun a b => a.port < b.port)
        ([{ port := 2, status := "open", service := "", banner := "" }] :
          List ProbeOutcome)) := by
  refine ⟨by decide, by rfl, ?_⟩
  exact c2_results_open_sorted_nodup sEx ordEx connEx banNone _ _ _ (by decide) (by rfl)

/-- C3: every submitted port yields exactly one outcome (the multiset of
outcome ports is exactly the submitted port range, and each submitted
port occurs exactly once among the outcomes), the completion counter
after any prefix of the completions never exceeds the expected total,
and the loop has consumed every submitted probe — the counter has
reached the total — when `scan_range` returns. -/
theorem c3_exactly_one_outcome_per_port (s : PortScanner) (order : List Nat)
    (conn : Nat → ConnectAttempt) (ban : Nat → BannerAttempt)
    (hperm : order.Perm (portsList s)) :
    ((scanOutcomes s order conn ban).map (fun r => r.port)).Perm (portsList s) ∧
    (∀ p ∈ portsList s,
      ((scanOutcomes s order conn ban).map (fun r => r.port)).count p = 1) ∧
    (∀ pre rest, scanOutcomes s order conn ban = pre ++ rest →
      (scanLoop (portsList s).length pre 0 [] []).1 ≤ (portsList s).length) ∧
    (scanLoop (portsList s).length (scanOutcomes s order conn ban) 0 [] []).1 =
      (portsList s).length := by
  have hmap := scanOutcomes_map_port s order conn ban
  have hlen : (scanOutcomes s order conn ban).length = (portsList s).length := by
    have := congrArg List.length hmap
    simpa [hperm.length_eq] using this
  refine ⟨?_, ?_, ?_, ?_⟩
  · rw [hmap]; exact hperm
  · intro p hp
    rw [hmap, hperm.count_eq]
    have hnodup : (portsList s).Nodup := by
      unfold portsList
      exact List.nodup_range' _ _
    exact List.count_eq_one_of_mem hnodup hp
  · intro pre rest hsplit
    have hle : pre.length ≤ (scanOutcomes s order conn ban).length := by
      rw [hsplit]
      simp
    rw [scanLoop_fst]
    omega
  · rw [scanLoop_fst]
    omega

/-- C3 witness: three submitted ports, three outcomes, counter ends at 3. -/
theorem c3_witness :
    ordEx.Perm (portsList sEx) ∧
    ((scanOutcomes sEx ordEx connEx banEx).map (fun r => r.port)).Perm
      (portsList sEx) ∧
    (scanLoop (portsList sEx).length (scanOutcomes sEx ordEx connEx banEx)
      0 [] []).1 = (portsList sEx).length :=
  ⟨by decide,
   (c3_exactly_one_outcome_per_port sEx ordEx connEx banEx (by decide)).1,
   (c3_exactly_one_outcome_per_port sEx ordEx connEx banEx (by decide)).2.2.2⟩

/-- C9 counterexample to configurability: the progress cadence is the
hard-coded literal `20` in `completed % 20 == 0 or completed == total`;
no constructor parameter or attribute of the scanner configures it.
Two scanners differing in every configuration field (target, port range,
timeout, thread count) emit the identical every-20th schedule on a
40-port scan, so the cadence asserted to be configurable by the claim is
fixed. -/
theorem c9_counterexample :
    cfgA.threads ≠ cfgB.threads ∧ cfgA.timeout ≠ cfgB.timeout ∧
    cfgA.ports_start ≠ cfgB.ports_start ∧ cfgA.target ≠ cfgB.target ∧
    scan_range cfgA (portsList cfgA) connClosed banNone =
      Except.ok ([], ({ cfgA with results := [] } : PortScanner),
        [mkProgress 20 40, mkProgress 40 40]) ∧
    scan_range cfgB (portsList cfgB) connClosed banNone =
      Except.ok ([], ({ cfgB with results := [] } : PortScanner),
        [mkProgress 20 40, mkProgress 40 40]) := by
  exact ⟨by decide, by decide, by decide, by decide, rfl, rfl⟩

/-- C9 (amended): progress notifications are emitted exactly at every
20th completion — the cadence is the hard-coded constant 20, not
configurable — and unconditionally on the final completion, each
reporting the percentage complete `(completed / total) * 100`. -/
theorem c9_progress_cadence (s : PortScanner) (order : List Nat)
    (conn : Nat → ConnectAttempt) (ban : Nat → BannerAttempt)
    (final : List ProbeOutcome) (s2 : PortScanner) (events : List Progress)
    (hperm : order.Perm (portsList s))
    (hrun : scan_range s order conn ban = Except.ok (final, s2, events)) :
    events = ((List.range' 1 (portsList s).length).filter
        (fun k => k % 20 = 0 ∨ k = (portsList s).length)).map
        (fun k => mkProgress k (portsList s).length) ∧
    (0 < (portsList s).length →
      events.getLast? =
        some (mkProgress (portsList s).length (portsList s).length)) := by
  by_cases ht : s.threads ≤ 0
  · simp [scan_range, ht] at hrun
  · simp only [scan_range, if_neg ht, Except.ok.injEq, Prod.mk.injEq] at hrun
    obtain ⟨-, -, hevents⟩ := hrun
    have hlen : (scanOutcomes { s with results := [] } order conn ban).length =
        (portsList s).length := by
      simp [scanOutcomes, hperm.length_eq]
    have hchar : events = ((List.range' 1 (portsList s).length).filter
        (fun k => k % 20 = 0 ∨ k = (portsList s).length)).map
        (fun k => mkProgress k (portsList s).length) := by
      rw [← hevents]
      have := scanLoop_events (portsList { s with results := [] }).length
        (scanOutcomes { s with results := [] } order conn ban) 0 [] []
      simpa [hlen] using this
    refine ⟨hchar, ?_⟩
    intro hpos
    obtain ⟨m, hm⟩ : ∃ m, (portsList s).length = m + 1 :=
      ⟨(portsList s).length - 1, by omega⟩
    rw [hchar, hm]
    rw [List.range'_concat]
    have hcond : ((fun k => decide (k % 20 = 0 ∨ k = m + 1)) (1 + 1 * m)) = true := by
      simp
      omega
    rw [List.filter_append, List.map_append]
    have : List.filter (fun k => decide (k % 20 = 0 ∨ k = m + 1)) [1 + 1 * m] =
        [1 + 1 * m] := by
      simp only [List.filter_cons, hcond, List.filter_nil, if_true]
    rw [this]
    have h1m : 1 + 1 * m = m + 1 := by omega
    rw [h1m]
    simp [List.getLast?_concat]

/-- C9 witness: the cadence characterization on a concrete 3-port scan
(one final notification, none before). -/
theorem c9_witness :
    ordEx.Perm (portsList sEx) ∧
    scan_range sEx ordEx connEx banNone =
      Except.ok ([{ port := 2, status := "open", service := "", banner := "" }],
        ({ sEx with results :=
            [{ port := 2, status := "open", service := "", banner := "" }] } :
          PortScanner),
        [mkProgress 3 3]) ∧
    [mkProgress 3 3] = ((List.range' 1 (portsList sEx).length).filter
        (fun k => k % 20 = 0 ∨ k = (portsList sEx).length)).map
        (fun k => mkProgress k (portsList sEx).length) :=
  ⟨by decide, rfl,
   (c9_progress_cadence sEx ordEx connEx banNone _ _ _ (by decide) rfl).1⟩

/-- C10: `get_results` returns a fresh copy of the internal results
list: the returned object is a different list object with the same
contents, any in-place mutation of it leaves the internal list
unchanged, and a subsequent `get_results` call still returns the
original contents. -/
theorem c10_get_results_copy (h : Heap) (r : PyListRef)
    (v : List ProbeOutcome) (hr : r.ref < h.next) :
    (get_results h r).2 ≠ r ∧
    Heap.read (get_results h r).1 (get_results h r).2 = Heap.read h r ∧
    Heap.read (Heap.write (get_results h r).1 (get_results h r).2 v) r =
      Heap.read h r ∧
    Heap.read
      (get_results (Heap.write (get_results h r).1 (get_results h r).2 v) r).1
      (get_results (Heap.write (get_results h r).1 (get_results h r).2 v) r).2 =
      Heap.read h r := by
  have hne : r.ref ≠ h.next := Nat.ne_of_lt hr
  refine ⟨?_, ?_, ?_, ?_⟩
  · intro hc
    apply hne
    rw [← hc]
    rfl
  · simp [get_results, listCopy, Heap.alloc, Heap.read]
  · simp [get_results, listCopy, Heap.alloc, Heap.read, Heap.write, hne]
  · simp [get_results, listCopy, Heap.alloc, Heap.read, Heap.write, hne]

/-- C10 witness: a concrete heap with one internal results list; the
copy is a distinct object and mutating it (here: overwriting with the
empty list) leaves the internal list and later `get_results` reads
unchanged. -/
theorem c10_witness :
    rEx.ref < hEx.next ∧
    ((get_results hEx rEx).2 ≠ rEx ∧
    Heap.read (get_results hEx rEx).1 (get_results hEx rEx).2 =
      Heap.read hEx rEx ∧
    Heap.read (Heap.write (get_results hEx rEx).1 (get_results hEx rEx).2 []) rEx =
      Heap.read hEx rEx ∧
    Heap.read
      (get_results
        (Heap.write (get_results hEx rEx).1 (get_results hEx rEx).2 []) rEx).1
      (get_results
        (Heap.write (get_results hEx rEx).1 (get_results hEx rEx).2 []) rEx).2 =
      Heap.read hEx rEx) :=
  ⟨by decide, c10_get_results_copy hEx rEx [] (by decide)⟩
